import Mathlib

/-!
Verification of the chatapp-v2-api turn-orchestration and history-compaction
engine, as a shallow embedding of the Python source into Lean 4.

The repository carries three generations of the same entity-store logic:
* `src/misc/db.py` — raw sqlite3 (the default backend selected by
  `src/migrations/db/db_factory.py` and hence the one the live chat route uses);
* `src/database/crud.py` — SQLAlchemy ORM over `src/database/models.py`;
* `src/migrations/db/db_azure.py` — pyodbc against Azure SQL.
Each operation here is a direct translation of one of those functions; the
prefix of the Lean name (`db_`, `crud_`) says which module it comes from.
Timestamps are modelled as `Nat` instants passed in by the caller (the Python
code reads the wall clock at the same program points).
-/

namespace ChatApp

/-- A role/content pair, the shape sent to the LLM providers
(`{"role": ..., "content": ...}` dictionaries in the Python source). -/
structure ChatMsg where
  role : String
  content : String
deriving DecidableEq, Repr

/-- A row of the `messages` table (both the sqlite schema in `misc/db.py`
`init_db` and the SQLAlchemy `MessageModel`). `created_at` is a `Nat` instant. -/
structure SqlMessage where
  id : String
  conversation_id : String
  role : String
  content : String
  created_at : Nat
  tokens : Option Nat
  model : Option String
  metadata : Option String
deriving DecidableEq, Repr

/-- A row of the `conversations` table (sqlite schema / `ConversationModel`).
`first_user_message` / `first_assistant_message` are the preview columns;
`none` models SQL NULL. -/
structure SqlConversation where
  id : String
  title : String
  created_at : Nat
  updated_at : Nat
  user_id : Option String
  model : String
  system_prompt : Option String
  first_user_message : Option String
  first_assistant_message : Option String
  metadata : Option String
deriving DecidableEq, Repr

/-- The persisted database state: the two tables.  The `messages` list is kept
in insertion order, which coincides with the `ORDER BY created_at` scan used by
`get_conversation` because every insert stamps `datetime(now)` and wall-clock
timestamps are non-decreasing across inserts. -/
structure DBState where
  conversations : List SqlConversation
  messages : List SqlMessage
deriving DecidableEq, Repr

/-- A Python dict passed as the `metadata` argument (keys and values opaque). -/
def PyDict := List (String × String)
deriving DecidableEq, Repr

/-- Python truthiness of an optional string: `None` and `""` are falsy. -/
def pyTruthy : Option String → Bool
  | none => false
  | some s => !s.isEmpty

/-- Python truthiness of an optional dict: `None` and `{}` are falsy
(`json.dumps(metadata) if metadata else None` takes the dumps branch exactly
when this is `true`). -/
def pyTruthyDict : Option PyDict → Bool
  | none => false
  | some d => !List.isEmpty d

/-- Stand-in for `json.dumps` on a metadata dict: any injective rendering
serves the embedding, no claim depends on the exact serialized text. -/
def jsonDumps (d : PyDict) : String :=
  String.intercalate "," ((d : List (String × String)).map fun kv => kv.1 ++ ":" ++ kv.2)

/-- The serialized value stored in the `metadata` column:
`json.dumps(metadata) if metadata else None`. -/
def dumpsIfTruthy (metadata : Option PyDict) : Option String :=
  match metadata with
  | none => none
  | some d => if List.isEmpty d then none else some (jsonDumps d)

/-- Python `content[:100]` (and `content[:100] if len(content) > 100 else content`,
which is the same function). -/
def pyTake100 (content : String) : String :=
  content.take 100

/-! ## `src/misc/db.py` — the raw-sqlite entity store (default backend) -/

/-- `misc/db.py create_conversation` (lines 80–114): inserts a conversation row
with NULL previews; both timestamps are `datetime(now)`.  The fresh uuid is a
parameter here. Returns the new id. -/
def db_create_conversation (st : DBState) (cid : String) (title : String)
    (model : String) (system_prompt : Option String) (user_id : Option String)
    (metadata : Option PyDict) (now : Nat) : DBState × String :=
  let conv : SqlConversation :=
    { id := cid, title := title, created_at := now, updated_at := now
      user_id := user_id, model := model, system_prompt := system_prompt
      first_user_message := none, first_assistant_message := none
      metadata := dumpsIfTruthy metadata }
  ({ st with conversations := st.conversations ++ [conv] }, cid)

/-- `UPDATE conversations SET updated_at = datetime(now) WHERE id = ?`. -/
def touchConversation (convs : List SqlConversation) (cid : String) (now : Nat) :
    List SqlConversation :=
  convs.map fun c => if c.id == cid then { c with updated_at := now } else c

/-- The message row the `INSERT INTO messages` statements of `misc/db.py` and
`db_azure.py` produce. -/
def mkMessageRow (mid : String) (conversation_id : String) (role : String)
    (content : String) (tokens : Option Nat) (model : Option String)
    (metadata : Option PyDict) (now : Nat) : SqlMessage :=
  { id := mid, conversation_id := conversation_id, role := role
    content := content, created_at := now, tokens := tokens, model := model
    metadata := dumpsIfTruthy metadata }

/-- Python `content[:100] if len(content) > 100 else content` in
`misc/db.py add_message`. -/
def dbTruncate (content : String) : String :=
  if content.length > 100 then content.take 100 else content

/-- `misc/db.py add_message` (lines 117–198).  There is no existence check on
the conversation: the INSERT always happens (the schema's FOREIGN KEY is not
enforced because the connection never issues a foreign-keys pragma), then for
roles user/assistant the post-insert `SELECT COUNT(*)` decides whether the
preview column is written (count == 1 means this insert was the first message
of that role); all branches stamp `updated_at` on the matching conversation
row, a no-op when no row matches.  Always returns the new message id. -/
def db_add_message (st : DBState) (mid : String) (conversation_id : String)
    (role : String) (content : String) (tokens : Option Nat)
    (model : Option String) (metadata : Option PyDict) (now : Nat) :
    DBState × String :=
  ({ conversations :=
       if role == "user" || role == "assistant" then
         if ((st.messages ++ [mkMessageRow mid conversation_id role content tokens model metadata now]).filter
              fun m => m.conversation_id == conversation_id && m.role == role).length == 1 then
           st.conversations.map fun c =>
             if c.id == conversation_id then
               if role == "user" then
                 { c with first_user_message := some (dbTruncate content), updated_at := now }
               else
                 { c with first_assistant_message := some (dbTruncate content), updated_at := now }
             else c
         else touchConversation st.conversations conversation_id now
       else touchConversation st.conversations conversation_id now
     messages := st.messages ++ [mkMessageRow mid conversation_id role content tokens model metadata now] },
   mid)

/-- `misc/db.py get_conversation` (lines 201–240): the conversation row plus
its messages in `ORDER BY created_at` (= insertion) order, `none` if absent. -/
def db_get_conversation (st : DBState) (conversation_id : String) :
    Option (SqlConversation × List SqlMessage) :=
  (st.conversations.find? fun c => c.id == conversation_id).map fun c =>
    (c, st.messages.filter fun m => m.conversation_id == conversation_id)

/-- `misc/db.py delete_conversation` (lines 285–303): executes only
`DELETE FROM conversations WHERE id = ?` and reports `rowcount > 0`.  The
declared `ON DELETE CASCADE` on `messages.conversation_id` never fires because
sqlite3 leaves foreign-key enforcement off by default and the module never
enables it, so the message rows stay behind. -/
def db_delete_conversation (st : DBState) (conversation_id : String) :
    DBState × Bool :=
  let remaining := st.conversations.filter fun c => !(c.id == conversation_id)
  let deleted := decide (remaining.length < st.conversations.length)
  ({ st with conversations := remaining }, deleted)

/-! ## `src/database/crud.py` — the SQLAlchemy entity store

`crud.py` imports `uuid`, `logging`, `typing`, `datetime` and two SQLAlchemy
names, but not `json`; every reference to `json.dumps` in this module raises
`NameError` at call time.  The crud operations therefore return
`DBState × Except String α`: the first component is the committed state (the
incoming state whenever the exception fires before `db.commit()`), the second
either the raised error or the Python return value. -/

/-- The error raised when `crud.py` evaluates the unbound name `json`. -/
def nameErrorJson : String := "NameError: name json is not defined"

/-- `crud.py create_conversation` (lines 22–59).  Evaluating the
`ConversationModel(...)` constructor call evaluates
`json.dumps(metadata) if metadata else None` first, so a truthy `metadata`
raises `NameError` before `db.add`/`db.commit`; otherwise the row is inserted
with NULL previews and default timestamps. -/
def crud_create_conversation (st : DBState) (cid : String) (title : String)
    (model : String) (user_id : Option String) (system_prompt : Option String)
    (metadata : Option PyDict) (now : Nat) :
    DBState × Except String SqlConversation :=
  if pyTruthyDict metadata then
    (st, .error nameErrorJson)
  else
    let conv : SqlConversation :=
      { id := cid, title := title, created_at := now, updated_at := now
        user_id := user_id, model := model, system_prompt := system_prompt
        first_user_message := none, first_assistant_message := none
        metadata := none }
    ({ st with conversations := st.conversations ++ [conv] }, .ok conv)

/-- `crud.py update_conversation` (lines 117–154): first the lookup (absent
conversation returns `None` without touching `metadata`), then the in-memory
field updates; `if metadata is not None` reaches `json.dumps` for every
non-`None` dict — including the empty one — raising `NameError` before
`db.commit()`, so nothing is persisted on that path. -/
def crud_update_conversation (st : DBState) (conversation_id : String)
    (title : Option String) (system_prompt : Option String)
    (metadata : Option PyDict) (now : Nat) :
    DBState × Except String (Option SqlConversation) :=
  match st.conversations.find? fun c => c.id == conversation_id with
  | none => (st, .ok none)
  | some conv =>
    if metadata.isSome then
      (st, .error nameErrorJson)
    else
      let conv' : SqlConversation :=
        { conv with
          title := match title with | some t => t | none => conv.title
          system_prompt := match system_prompt with
            | some sp => some sp | none => conv.system_prompt
          updated_at := now }
      ({ st with conversations :=
          st.conversations.map fun c => if c.id == conversation_id then conv' else c },
        .ok (some conv'))

/-- `crud.py delete_conversation` (lines 157–177): `db.delete(conversation)`
removes the conversation and, through the `cascade=all, delete-orphan`
relationship declared on `ConversationModel.messages` in
`src/database/models.py`, every owned message; returns whether a row existed. -/
def crud_delete_conversation (st : DBState) (conversation_id : String) :
    DBState × Bool :=
  match st.conversations.find? fun c => c.id == conversation_id with
  | none => (st, false)
  | some _ =>
    ({ conversations := st.conversations.filter fun c => !(c.id == conversation_id)
       messages := st.messages.filter fun m => !(m.conversation_id == conversation_id) },
      true)

/-- The single-conversation update performed by `crud.py add_message` after the
INSERT: stamp `updated_at`, then set the preview column for the message's role
if its current value is falsy (`not conversation.first_user_message` is true
for NULL and for the empty string). -/
def crud_message_side_effect (role : String) (content : String) (now : Nat)
    (c : SqlConversation) : SqlConversation :=
  if role == "user" && !pyTruthy c.first_user_message then
    { c with updated_at := now
             first_user_message := some (if content.isEmpty then "" else content.take 100) }
  else if role == "assistant" && !pyTruthy c.first_assistant_message then
    { c with updated_at := now
             first_assistant_message := some (if content.isEmpty then "" else content.take 100) }
  else { c with updated_at := now }

/-- `crud.py add_message` (lines 181–241).  The existence check runs first and
an absent conversation returns `None` with no insert; then the
`MessageModel(...)` call evaluates `json.dumps(metadata) if metadata else None`
(`NameError` on truthy metadata, before anything is added to the session);
otherwise the message is inserted and the conversation's `updated_at` and
preview column are updated in the same unit of work. -/
def crud_add_message (st : DBState) (mid : String) (conversation_id : String)
    (role : String) (content : String) (tokens : Option Nat)
    (model : Option String) (metadata : Option PyDict) (now : Nat) :
    DBState × Except String (Option SqlMessage) :=
  match st.conversations.find? fun c => c.id == conversation_id with
  | none => (st, .ok none)
  | some _ =>
    if pyTruthyDict metadata then
      (st, .error nameErrorJson)
    else
      let msg : SqlMessage :=
        { id := mid, conversation_id := conversation_id, role := role
          content := content, created_at := now, tokens := tokens, model := model
          metadata := none }
      ({ conversations := st.conversations.map fun c =>
           if c.id == conversation_id then crud_message_side_effect role content now c
           else c
         messages := st.messages ++ [msg] },
        .ok (some msg))

/-! ## History assembly

Two variants again: `LLMServiceProvider.get_message_history` in
`src/llm_service_providers/index.py` (the one the chat route calls) and
`get_message_history` in `src/database/crud.py`. -/

/-- `misc/constants.py CONVERSATION_MESSAGES_THRESHOLD`. -/
def CONVERSATION_MESSAGES_THRESHOLD : Nat := 20

/-- The projection loop shared by both history builders: keep messages whose
role is user/assistant/system, as `{role, content}` pairs, in order; every
other role is skipped silently. -/
def projectMessages (msgs : List SqlMessage) : List ChatMsg :=
  (msgs.filter fun m =>
      m.role == "user" || m.role == "assistant" || m.role == "system").map
    fun m => { role := m.role, content := m.content }

/-- Python `lst[-k:]` for `k > 0` is the last `k` elements (all of them when
`k ≥ len`); `lst[-0:]` is the whole list. -/
def pySliceLast (l : List ChatMsg) (k : Nat) : List ChatMsg :=
  if k == 0 then l else l.drop (l.length - k)

/-- `LLMServiceProvider.get_message_history` (`index.py` lines 156–229).
Reads the conversation through `misc.db.get_conversation`, raises `ValueError`
when absent, projects the roles, and applies the threshold policy: a list of
at most 20 entries — or any list with `summarize` false — is returned as is;
otherwise the last 20 entries are kept and the older ones are fed to the
summarizer (`self.brief_summary_of_conversation_history`, modelled as the
function argument `summarizer` whose `Except` result is the generation call's
outcome).  A successful summary is prepended as one system entry; a failure is
caught and the recent entries alone are returned. Note the conversation's
stored `system_prompt` is never consulted here. -/
def llm_get_message_history (st : DBState) (conversation_id : String)
    (summarize : Bool) (summarizer : List ChatMsg → Except String String) :
    Except String (List ChatMsg) :=
  match db_get_conversation st conversation_id with
  | none => .error ("Conversation with ID " ++ conversation_id ++ " not found")
  | some (_, dbMsgs) =>
    if (projectMessages dbMsgs).length ≤ CONVERSATION_MESSAGES_THRESHOLD then
      .ok (projectMessages dbMsgs)
    else if !summarize then
      .ok (projectMessages dbMsgs)
    else if !((projectMessages dbMsgs).take
        ((projectMessages dbMsgs).length - CONVERSATION_MESSAGES_THRESHOLD)).isEmpty then
      match summarizer ((projectMessages dbMsgs).take
          ((projectMessages dbMsgs).length - CONVERSATION_MESSAGES_THRESHOLD)) with
      | .ok summary =>
        .ok ({ role := "system"
               content := "Summary of previous conversation: \n" ++ summary }
          :: pySliceLast (projectMessages dbMsgs) CONVERSATION_MESSAGES_THRESHOLD)
      | .error _ => .ok (pySliceLast (projectMessages dbMsgs) CONVERSATION_MESSAGES_THRESHOLD)
    else .ok (pySliceLast (projectMessages dbMsgs) CONVERSATION_MESSAGES_THRESHOLD)

/-- The message list after `crud.py get_message_history`'s system-prompt
insertion (lines 303–311): the projected pairs, with
`{role: system, content: system_prompt}` inserted at index 0 when the stored
prompt is truthy and no projected message already has role system. -/
def crudProjected (conv : SqlConversation) (dbMsgs : List SqlMessage) : List ChatMsg :=
  if pyTruthy conv.system_prompt
      && !((projectMessages dbMsgs).any fun m => m.role == "system") then
    { role := "system", content := conv.system_prompt.getD "" } :: projectMessages dbMsgs
  else projectMessages dbMsgs

/-- `crud.py get_message_history` (lines 275–331).  Differences from the
service-provider variant, kept verbatim from the source: an absent
conversation yields `[]` (no error), a truthy stored `system_prompt` is
prepended when no projected message already has role system, the threshold is
a parameter, and the summarization branch keeps only the last `threshold - 1`
entries behind a fixed placeholder system entry. -/
def crud_get_message_history (st : DBState) (conversation_id : String)
    (summarize : Bool) (threshold : Nat) : List ChatMsg :=
  match db_get_conversation st conversation_id with
  | none => []
  | some (conv, dbMsgs) =>
    if !summarize || (crudProjected conv dbMsgs).length ≤ threshold then
      crudProjected conv dbMsgs
    else
      { role := "system"
        content := "[This would be a summary of "
          ++ toString ((crudProjected conv dbMsgs).length
              - (pySliceLast (crudProjected conv dbMsgs) (threshold - 1)).length)
          ++ " earlier messages]" }
        :: pySliceLast (crudProjected conv dbMsgs) (threshold - 1)

/-! ## Model routing (`misc/constants.py`, `index.py`) -/

/-- `misc/constants.py MODEL_PROVIDER_MAP`. -/
def MODEL_PROVIDER_MAP : List (String × String) :=
  [("gpt-4o-mini", "openai"), ("gpt-4o", "openai"), ("gpt-4.1", "openai"),
   ("gpt-4.1-mini", "openai"), ("gpt-3.5-turbo", "openai"),
   ("claude-3-5-haiku-20241022", "anthropic"),
   ("claude-3-opus-20240229", "anthropic"),
   ("claude-3-sonnet-20240229", "anthropic"),
   ("claude-3-haiku-20240307", "anthropic")]

/-- `LLMServiceProvider.get_available_models` (`index.py` lines 139–154): the
initialized providers (those whose credential was present at construction),
each with the models the static table maps to it. -/
def get_available_models (providers : List String) :
    List (String × List String) :=
  providers.map fun p =>
    (p, (MODEL_PROVIDER_MAP.filter fun mp => mp.2 == p).map fun mp => mp.1)

/-- The availability loop at the top of the `chat` route (`routes/chat.py`
lines 113–120): scan `get_available_models` for the requested name. -/
def model_found (providers : List String) (model : String) : Bool :=
  (get_available_models providers).any fun pm => pm.2.contains model

/-! ## The streaming turn (`routes/chat.py`) -/

/-- `schema/chat.py ChatStreamResponse`, with its field defaults. -/
structure ChatStreamResponse where
  content : String := ""
  done : Bool := false
  conversation_id : Option String := none
  error : Option String := none
deriving DecidableEq, Repr

/-- One observable step of `stream_generator`: either an SSE event yielded to
the client or the `add_message` call persisting the assistant reply. -/
inductive StreamStep where
  | emit (e : ChatStreamResponse)
  | persistAssistant (conversation_id : String) (content : String) (model : String)
deriving DecidableEq, Repr

/-- `routes/chat.py stream_generator` (lines 18–90) as its trace of observable
steps.  `deltas` are the chunk contents successfully pulled from
`llm_service.stream_chat` (each yielded as a `done=false` event and added to
the accumulator); `streamError` is the exception, if any, raised while pulling
the next chunk — it skips straight to the `except` block, which yields one
`done=true` event carrying the error and does not persist.  On exhaustion the
code yields the `done=true` completion event first and only then calls
`add_message` with the accumulated text; if that call raises
(`persistError`), the `except` block yields a second terminal event. -/
def stream_generator (deltas : List String) (streamError : Option String)
    (persistError : Option String) (model : String) (conversation_id : String) :
    List StreamStep :=
  let chunkEvents := deltas.map fun d =>
    StreamStep.emit { content := d, done := false }
  match streamError with
  | some e =>
    chunkEvents ++
      [.emit { done := true, conversation_id := some conversation_id, error := some e }]
  | none =>
    let full := String.join deltas
    let doneEvent : StreamStep :=
      .emit { content := "", done := true, conversation_id := some conversation_id }
    match persistError with
    | none =>
      chunkEvents ++ [doneEvent, .persistAssistant conversation_id full model]
    | some e =>
      chunkEvents ++ [doneEvent,
        .emit { done := true, conversation_id := some conversation_id, error := some e }]

/-- Is this step an SSE event with `done=true`? -/
def isTerminalEvent : StreamStep → Bool
  | .emit e => e.done
  | .persistAssistant _ _ _ => false

/-- Is this step the persistence of the assistant message? -/
def isPersistStep : StreamStep → Bool
  | .emit _ => false
  | .persistAssistant _ _ _ => true

/-- Does some persistence step strictly precede some `done=true` event in the
trace?  This is the order the spec asserts for successful streams. -/
def persistBeforeDone (t : List StreamStep) : Bool :=
  (List.range t.length).any fun i =>
    (List.range t.length).any fun j =>
      i < j && ((t.get? i).map isPersistStep).getD false
        && ((t.get? j).map isTerminalEvent).getD false

/-- `schema/chat.py ChatRequest` (defaults included; `summarize_history`
defaults to true). -/
structure ChatRequest where
  model : String
  message : String
  conversation_session_id : Option String := none
  system_prompt : Option String := none
  summarize_history : Bool := true
  title : Option String := none
deriving DecidableEq, Repr

/-- The synchronous part of the `chat` route (`routes/chat.py` lines 93–154),
up to handing the assembled history to `stream_generator`.  The database
functions are the db-factory ones, i.e. the `misc/db.py` sqlite backend
(`DB_TYPE` defaults to sqlite).  Returns the committed state plus either a
synchronous `HTTPException`-style error `(status, detail)` or the conversation
id and history passed on to the stream.  Order, from the source: availability
check and 400 first; then conversation creation when the session id is falsy
(title from the first 50 characters of the message plus an ellipsis when
longer); then the user-message append; then history assembly, whose
`ValueError` would surface as a server error (500). -/
def chat (st : DBState) (req : ChatRequest) (providers : List String)
    (freshConvId : String) (freshMsgId : String) (now : Nat)
    (summarizer : List ChatMsg → Except String String) :
    DBState × Except (Nat × String) (String × List ChatMsg) :=
  if !model_found providers req.model then
    (st, .error (400, "Model " ++ req.model ++ " is not available"))
  else
    let (st1, cid) :=
      if !pyTruthy req.conversation_session_id then
        let title :=
          if req.message.length > 50 then req.message.take 50 ++ "..." else req.message
        db_create_conversation st freshConvId title req.model req.system_prompt none none now
      else
        (st, req.conversation_session_id.getD "")
    let (st2, _) := db_add_message st1 freshMsgId cid "user" req.message none none none now
    match llm_get_message_history st2 cid req.summarize_history summarizer with
    | .error e => (st2, .error (500, e))
    | .ok history => (st2, .ok (cid, history))

/-! ## Append sequences and their preview-column semantics

To reason about "every sequence of appendMessage calls" we run a list of
`(role, content)` items through each backend's `add_message`, handing out the
fresh ids `m0, m1, …` and the instants `0, 1, …` the way the Python call sites
hand out uuids and wall-clock reads. -/

/-- Run a list of `(role, content)` appends against one conversation through
`crud.py add_message` (metadata omitted, as the orchestrator does). -/
def crud_append_seq : DBState → String → Nat → List (String × String) → DBState
  | st, _, _, [] => st
  | st, cid, k, it :: rest =>
    crud_append_seq
      (crud_add_message st ("m" ++ toString k) cid it.1 it.2 none none none k).1
      cid (k + 1) rest

/-- Run a list of `(role, content)` appends against one conversation through
`misc/db.py add_message`. -/
def db_append_seq : DBState → String → Nat → List (String × String) → DBState
  | st, _, _, [] => st
  | st, cid, k, it :: rest =>
    db_append_seq
      (db_add_message st ("m" ++ toString k) cid it.1 it.2 none none none k).1
      cid (k + 1) rest

/-- How one append evolves a preview column in the SQLAlchemy backend: the
column is written when the roles match and the current value is falsy
(NULL or the empty string). -/
def previewStep (r : String) (it : String × String) (p : Option String) : Option String :=
  if it.1 == r && !pyTruthy p then
    some (if it.2.isEmpty then "" else it.2.take 100)
  else p

/-- The SQLAlchemy preview column after a whole append sequence. -/
def previewFold (r : String) (items : List (String × String)) (p : Option String) :
    Option String :=
  items.foldl (fun q it => previewStep r it q) p

/-- The value the SQLAlchemy preview column ends up with, starting from NULL:
the first 100 characters of the first message of the role with non-empty
content; the empty string when messages of the role exist but all were empty;
NULL when the role never appeared. -/
def expectedPreview (r : String) (items : List (String × String)) : Option String :=
  match items.find? fun it => it.1 == r && !it.2.isEmpty with
  | some it => some (it.2.take 100)
  | none => if items.any (fun it => it.1 == r) then some "" else none

/-- How one append evolves `(count of stored messages of the role, preview)`
in the sqlite backend: the post-insert count decides, so the column is written
exactly when the insert was the first of its role. -/
def dbPreviewStep (r : String) (acc : Nat × Option String) (it : String × String) :
    Nat × Option String :=
  if it.1 == r then
    (acc.1 + 1, if acc.1 == 0 then some (dbTruncate it.2) else acc.2)
  else acc

/-- The sqlite preview column after a whole append sequence on a conversation
with no prior messages of the role: the first message of the role, truncated,
or the untouched prior value. -/
def dbExpectedPreview (r : String) (items : List (String × String)) (p : Option String) :
    Option String :=
  match items.find? fun it => it.1 == r with
  | some it => some (dbTruncate it.2)
  | none => p

/-! ## Concrete inputs used by witnesses and counterexamples -/

/-- A conversation row as `create_conversation` leaves it (previews NULL). -/
def demoConv (cid : String) (sp : Option String) : SqlConversation :=
  { id := cid, title := "t", created_at := 0, updated_at := 0, user_id := none
    model := "gpt-4o", system_prompt := sp, first_user_message := none
    first_assistant_message := none, metadata := none }

/-- `n` alternating user/assistant messages `x0 … x(n-1)` in one conversation. -/
def demoMsgs (cid : String) (n : Nat) : List SqlMessage :=
  (List.range n).map fun i =>
    { id := "m" ++ toString i, conversation_id := cid
      role := if i % 2 == 0 then "user" else "assistant"
      content := "x" ++ toString i, created_at := i
      tokens := none, model := none, metadata := none }

/-- A 25-message conversation, the scenario state of the spec. -/
def scenarioState : DBState :=
  { conversations := [demoConv "c" none], messages := demoMsgs "c" 25 }

/-- A summarizer whose generation call succeeds with a fixed bullet list. -/
def okSummarizer : List ChatMsg → Except String String :=
  fun _ => .ok "- point one"

/-- A summarizer whose generation call raises. -/
def failSummarizer : List ChatMsg → Except String String :=
  fun _ => .error "rate limited"

/-! ## Helper lemmas -/

theorem take100_isEmpty (s : String) : (s.take 100).isEmpty = s.isEmpty := by
  rw [Bool.eq_iff_iff, String.isEmpty_iff, String.isEmpty_iff, String.take_eq]
  rcases s with ⟨d⟩
  constructor
  · intro h
    have hd : d.take 100 = [] := by simpa [String.ext_iff] using h
    rcases List.take_eq_nil_iff.mp hd with h100 | hnil
    · exact absurd h100 (by decide)
    · simp [String.ext_iff, hnil]
  · intro h
    have hd : d = [] := by simpa [String.ext_iff] using h
    simp [String.ext_iff, hd]

theorem pyTruthy_take100 (s : String) (h : s.isEmpty = false) :
    pyTruthy (some (s.take 100)) = true := by
  simp [pyTruthy, take100_isEmpty, h]

theorem find?_map_ite (l : List SqlConversation) (cid : String)
    (f : SqlConversation → SqlConversation) (hf : ∀ c, (f c).id = c.id) :
    (l.map fun c => if c.id == cid then f c else c).find? (fun c => c.id == cid)
      = (l.find? fun c => c.id == cid).map f := by
  induction l with
  | nil => rfl
  | cons a l ih =>
    by_cases h : a.id = cid
    · have he : (if a.id == cid then f a else a) = f a := by simp [h]
      have hpa : (a.id == cid) = true := by simp [h]
      have hpfa : ((f a).id == cid) = true := by simp [hf, h]
      rw [List.map_cons, he, List.find?_cons, List.find?_cons, hpfa, hpa]
      rfl
    · have he : (if a.id == cid then f a else a) = a := by simp [h]
      have hpa : (a.id == cid) = false := by simp [h]
      rw [List.map_cons, he, List.find?_cons, List.find?_cons, hpa]
      exact ih

theorem side_effect_id (role content : String) (now : Nat) (c : SqlConversation) :
    (crud_message_side_effect role content now c).id = c.id := by
  unfold crud_message_side_effect
  split
  · rfl
  · split <;> rfl

theorem side_effect_first_user (role content : String) (now : Nat) (c : SqlConversation) :
    (crud_message_side_effect role content now c).first_user_message
      = previewStep "user" (role, content) c.first_user_message := by
  unfold crud_message_side_effect previewStep
  by_cases h1 : (role == "user" && !pyTruthy c.first_user_message) = true
  · rw [if_pos h1, if_pos h1]
  · rw [if_neg h1, if_neg h1]
    split <;> rfl

theorem side_effect_first_assistant (role content : String) (now : Nat) (c : SqlConversation) :
    (crud_message_side_effect role content now c).first_assistant_message
      = previewStep "assistant" (role, content) c.first_assistant_message := by
  unfold crud_message_side_effect previewStep
  by_cases h1 : (role == "user" && !pyTruthy c.first_user_message) = true
  · have hru : role = "user" := by
      have := (Bool.and_eq_true _ _).mp h1
      simpa using this.1
    have h2 : (role == "assistant") = false := by simp [hru]
    rw [if_pos h1]
    simp [h2]
  · rw [if_neg h1]
    by_cases h2 : (role == "assistant" && !pyTruthy c.first_assistant_message) = true
    · rw [if_pos h2, if_pos h2]
    · rw [if_neg h2, if_neg h2]

theorem previewFold_cons (r : String) (it : String × String)
    (rest : List (String × String)) (p : Option String) :
    previewFold r (it :: rest) p = previewFold r rest (previewStep r it p) := rfl

theorem previewFold_of_truthy (r : String) (items : List (String × String)) :
    ∀ p : Option String, pyTruthy p = true → previewFold r items p = p := by
  induction items with
  | nil => intro p _; rfl
  | cons it rest ih =>
    intro p hp
    rw [previewFold_cons]
    have hstep : previewStep r it p = p := by
      unfold previewStep
      simp [hp]
    rw [hstep]
    exact ih p hp

theorem previewFold_falsy (r : String) (items : List (String × String)) :
    ∀ p : Option String, pyTruthy p = false →
    previewFold r items p
      = (match items.find? fun it => it.1 == r && !it.2.isEmpty with
         | some it => some (it.2.take 100)
         | none => if items.any (fun it => it.1 == r) then some "" else p) := by
  induction items with
  | nil => intro p _; rfl
  | cons it rest ih =>
    intro p hp
    rw [previewFold_cons]
    by_cases hr : (it.1 == r) = true
    · by_cases hc : it.2.isEmpty = true
      · have hstep : previewStep r it p = some "" := by
          unfold previewStep
          simp [hr, hp, hc]
        rw [hstep, ih (some "") (by decide)]
        have hhead : (it.1 == r && !it.2.isEmpty) = false := by simp [hc]
        rw [List.find?_cons, hhead, List.any_cons, hr]
        cases hfind : rest.find? (fun x => x.1 == r && !x.2.isEmpty) <;> simp
      · have hcf : it.2.isEmpty = false := by simpa using hc
        have hstep : previewStep r it p = some (it.2.take 100) := by
          unfold previewStep
          simp [hr, hp, hcf]
        rw [hstep, previewFold_of_truthy r rest _ (pyTruthy_take100 _ hcf)]
        have hhead : (it.1 == r && !it.2.isEmpty) = true := by simp [hr, hcf]
        rw [List.find?_cons, hhead]
    · have hrf : (it.1 == r) = false := by simpa using hr
      have hstep : previewStep r it p = p := by
        unfold previewStep
        simp [hrf]
      rw [hstep, ih p hp]
      have hhead : (it.1 == r && !it.2.isEmpty) = false := by simp [hrf]
      rw [List.find?_cons, hhead, List.any_cons, hrf, Bool.false_or]

theorem crud_add_message_found (st : DBState) (mid cid role content : String)
    (now : Nat) (c : SqlConversation)
    (hfind : st.conversations.find? (fun x => x.id == cid) = some c) :
    (crud_add_message st mid cid role content none none none now).1
      = { conversations := st.conversations.map fun x =>
            if x.id == cid then crud_message_side_effect role content now x else x
          messages := st.messages ++
            [{ id := mid, conversation_id := cid, role := role, content := content
               created_at := now, tokens := none, model := none, metadata := none }] } := by
  unfold crud_add_message
  rw [hfind]
  rfl

theorem crud_append_seq_previews (items : List (String × String)) :
    ∀ (st : DBState) (cid : String) (k : Nat) (c : SqlConversation),
    st.conversations.find? (fun x => x.id == cid) = some c →
    ∃ c', (crud_append_seq st cid k items).conversations.find? (fun x => x.id == cid) = some c'
      ∧ c'.first_user_message = previewFold "user" items c.first_user_message
      ∧ c'.first_assistant_message = previewFold "assistant" items c.first_assistant_message := by
  induction items with
  | nil =>
    intro st cid k c h
    exact ⟨c, h, rfl, rfl⟩
  | cons it rest ih =>
    intro st cid k c h
    have hstep := crud_add_message_found st ("m" ++ toString k) cid it.1 it.2 k c h
    have hfind' :
        ((crud_add_message st ("m" ++ toString k) cid it.1 it.2 none none none k).1).conversations.find?
            (fun x => x.id == cid)
          = some (crud_message_side_effect it.1 it.2 k c) := by
      rw [hstep]
      have := find?_map_ite st.conversations cid (crud_message_side_effect it.1 it.2 k)
        (fun x => side_effect_id it.1 it.2 k x)
      rw [this, h]
      rfl
    obtain ⟨c', h1, h2, h3⟩ := ih _ cid (k + 1) _ hfind'
    refine ⟨c', ?_, ?_, ?_⟩
    · show (crud_append_seq st cid k (it :: rest)).conversations.find? (fun x => x.id == cid) = some c'
      unfold crud_append_seq
      exact h1
    · rw [previewFold_cons, h2, side_effect_first_user]
    · rw [previewFold_cons, h3, side_effect_first_assistant]

theorem db_add_message_msgs (st : DBState) (mid cid r content : String) (now : Nat) :
    (db_add_message st mid cid r content none none none now).1.messages
      = st.messages ++ [mkMessageRow mid cid r content none none none now] := rfl

theorem db_filter_append_same (st : DBState) (mid cid r content : String) (now : Nat) :
    ((st.messages ++ [mkMessageRow mid cid r content none none none now]).filter
        fun m => m.conversation_id == cid && m.role == r).length
      = (st.messages.filter fun m => m.conversation_id == cid && m.role == r).length + 1 := by
  simp [mkMessageRow, List.filter_append]

theorem db_filter_append_other (st : DBState) (mid cid r r2 content : String) (now : Nat)
    (h : (r == r2) = false) :
    ((st.messages ++ [mkMessageRow mid cid r content none none none now]).filter
        fun m => m.conversation_id == cid && m.role == r2).length
      = (st.messages.filter fun m => m.conversation_id == cid && m.role == r2).length := by
  simp [mkMessageRow, List.filter_append, h]

theorem nat_succ_beq_one (n : Nat) : (n + 1 == 1) = (n == 0) := by
  cases n <;> rfl

theorem db_add_message_convs (st : DBState) (mid cid r content : String) (now : Nat) :
    (db_add_message st mid cid r content none none none now).1.conversations
      = (if r == "user" || r == "assistant" then
           if (st.messages.filter fun m => m.conversation_id == cid && m.role == r).length == 0 then
             st.conversations.map fun c =>
               if c.id == cid then
                 if r == "user" then
                   { c with first_user_message := some (dbTruncate content), updated_at := now }
                 else
                   { c with first_assistant_message := some (dbTruncate content), updated_at := now }
               else c
           else touchConversation st.conversations cid now
         else touchConversation st.conversations cid now) := by
  show (if r == "user" || r == "assistant" then
          if ((st.messages ++ [mkMessageRow mid cid r content none none none now]).filter
              fun m => m.conversation_id == cid && m.role == r).length == 1 then _ else _
        else _) = _
  rw [db_filter_append_same, nat_succ_beq_one]

theorem db_convs_user_first (st : DBState) (mid cid content : String) (now : Nat)
    (h : (st.messages.filter fun m => m.conversation_id == cid && m.role == "user").length = 0) :
    (db_add_message st mid cid "user" content none none none now).1.conversations
      = st.conversations.map fun c =>
          if c.id == cid then
            { c with first_user_message := some (dbTruncate content), updated_at := now }
          else c := by
  rw [db_add_message_convs, h]
  rfl

theorem db_convs_user_later (st : DBState) (mid cid content : String) (now : Nat) (n : Nat)
    (h : (st.messages.filter fun m => m.conversation_id == cid && m.role == "user").length = n + 1) :
    (db_add_message st mid cid "user" content none none none now).1.conversations
      = touchConversation st.conversations cid now := by
  rw [db_add_message_convs, h]
  rfl

theorem db_convs_assistant_first (st : DBState) (mid cid content : String) (now : Nat)
    (h : (st.messages.filter fun m => m.conversation_id == cid && m.role == "assistant").length = 0) :
    (db_add_message st mid cid "assistant" content none none none now).1.conversations
      = st.conversations.map fun c =>
          if c.id == cid then
            { c with first_assistant_message := some (dbTruncate content), updated_at := now }
          else c := by
  rw [db_add_message_convs, h]
  rfl

theorem db_convs_assistant_later (st : DBState) (mid cid content : String) (now : Nat) (n : Nat)
    (h : (st.messages.filter fun m => m.conversation_id == cid && m.role == "assistant").length = n + 1) :
    (db_add_message st mid cid "assistant" content none none none now).1.conversations
      = touchConversation st.conversations cid now := by
  rw [db_add_message_convs, h]
  rfl

theorem db_convs_other (st : DBState) (mid cid r content : String) (now : Nat)
    (h1 : (r == "user") = false) (h2 : (r == "assistant") = false) :
    (db_add_message st mid cid r content none none none now).1.conversations
      = touchConversation st.conversations cid now := by
  rw [db_add_message_convs, h1, h2]
  rfl

theorem find?_touch (l : List SqlConversation) (cid : String) (now : Nat) :
    (touchConversation l cid now).find? (fun c => c.id == cid)
      = (l.find? fun c => c.id == cid).map fun c => { c with updated_at := now } := by
  unfold touchConversation
  exact find?_map_ite l cid _ (fun _ => rfl)

theorem find?_set_user (l : List SqlConversation) (cid content : String) (now : Nat) :
    (l.map fun c =>
        if c.id == cid then
          { c with first_user_message := some (dbTruncate content), updated_at := now }
        else c).find? (fun c => c.id == cid)
      = (l.find? fun c => c.id == cid).map fun c =>
          { c with first_user_message := some (dbTruncate content), updated_at := now } :=
  find?_map_ite l cid _ (fun _ => rfl)

theorem find?_set_assistant (l : List SqlConversation) (cid content : String) (now : Nat) :
    (l.map fun c =>
        if c.id == cid then
          { c with first_assistant_message := some (dbTruncate content), updated_at := now }
        else c).find? (fun c => c.id == cid)
      = (l.find? fun c => c.id == cid).map fun c =>
          { c with first_assistant_message := some (dbTruncate content), updated_at := now } :=
  find?_map_ite l cid _ (fun _ => rfl)



theorem db_append_seq_previews (items : List (String × String)) :
    ∀ (st : DBState) (cid : String) (k : Nat) (c : SqlConversation) (nu na : Nat)
      (pu pa : Option String),
    st.conversations.find? (fun x => x.id == cid) = some c →
    (st.messages.filter fun m => m.conversation_id == cid && m.role == "user").length = nu →
    (st.messages.filter fun m => m.conversation_id == cid && m.role == "assistant").length = na →
    c.first_user_message = pu →
    c.first_assistant_message = pa →
    ∃ c', (db_append_seq st cid k items).conversations.find? (fun x => x.id == cid) = some c'
      ∧ c'.first_user_message = (items.foldl (dbPreviewStep "user") (nu, pu)).2
      ∧ c'.first_assistant_message = (items.foldl (dbPreviewStep "assistant") (na, pa)).2 := by
  induction items with
  | nil =>
    intro st cid k c nu na pu pa h _ _ hpu hpa
    exact ⟨c, h, hpu, hpa⟩
  | cons it rest ih =>
    obtain ⟨r, content⟩ := it
    intro st cid k c nu na pu pa hfind hcu hca hpu hpa
    have hshow : db_append_seq st cid k ((r, content) :: rest)
        = db_append_seq (db_add_message st ("m" ++ toString k) cid r content none none none k).1
            cid (k + 1) rest := rfl
    rw [hshow]
    by_cases hru : r = "user"
    · subst hru
      have hcu1 : (((db_add_message st ("m" ++ toString k) cid "user" content none none none k).1).messages.filter
          fun m => m.conversation_id == cid && m.role == "user").length = nu + 1 := by
        rw [db_add_message_msgs, db_filter_append_same st ("m" ++ toString k) cid "user" content k, hcu]
      have hca1 : (((db_add_message st ("m" ++ toString k) cid "user" content none none none k).1).messages.filter
          fun m => m.conversation_id == cid && m.role == "assistant").length = na := by
        rw [db_add_message_msgs,
          db_filter_append_other st ("m" ++ toString k) cid "user" "assistant" content k (by decide), hca]
      rcases nu with _ | m
      · have hfind1 : ((db_add_message st ("m" ++ toString k) cid "user" content none none none k).1).conversations.find?
            (fun x => x.id == cid)
            = some { c with first_user_message := some (dbTruncate content), updated_at := k } := by
          rw [db_convs_user_first st ("m" ++ toString k) cid content k hcu, find?_set_user, hfind]
          rfl
        obtain ⟨c', h1, h2, h3⟩ := ih _ cid (k + 1) _ (0 + 1) na
          (some (dbTruncate content)) pa hfind1 hcu1 hca1 rfl hpa
        refine ⟨c', h1, ?_, ?_⟩
        · rw [h2, List.foldl_cons]
          rfl
        · rw [h3, List.foldl_cons]
          rfl
      · have hfind1 : ((db_add_message st ("m" ++ toString k) cid "user" content none none none k).1).conversations.find?
            (fun x => x.id == cid)
            = some { c with updated_at := k } := by
          rw [db_convs_user_later st ("m" ++ toString k) cid content k m hcu, find?_touch, hfind]
          rfl
        obtain ⟨c', h1, h2, h3⟩ := ih _ cid (k + 1) _ (m + 1 + 1) na pu pa hfind1 hcu1 hca1 hpu hpa
        refine ⟨c', h1, ?_, ?_⟩
        · rw [h2, List.foldl_cons]
          rfl
        · rw [h3, List.foldl_cons]
          rfl
    · by_cases hra : r = "assistant"
      · subst hra
        have hcu1 : (((db_add_message st ("m" ++ toString k) cid "assistant" content none none none k).1).messages.filter
            fun m => m.conversation_id == cid && m.role == "user").length = nu := by
          rw [db_add_message_msgs,
            db_filter_append_other st ("m" ++ toString k) cid "assistant" "user" content k (by decide), hcu]
        have hca1 : (((db_add_message st ("m" ++ toString k) cid "assistant" content none none none k).1).messages.filter
            fun m => m.conversation_id == cid && m.role == "assistant").length = na + 1 := by
          rw [db_add_message_msgs, db_filter_append_same st ("m" ++ toString k) cid "assistant" content k, hca]
        rcases na with _ | m
        · have hfind1 : ((db_add_message st ("m" ++ toString k) cid "assistant" content none none none k).1).conversations.find?
              (fun x => x.id == cid)
              = some { c with first_assistant_message := some (dbTruncate content), updated_at := k } := by
            rw [db_convs_assistant_first st ("m" ++ toString k) cid content k hca, find?_set_assistant, hfind]
            rfl
          obtain ⟨c', h1, h2, h3⟩ := ih _ cid (k + 1) _ nu (0 + 1) pu
            (some (dbTruncate content)) hfind1 hcu1 hca1 hpu rfl
          refine ⟨c', h1, ?_, ?_⟩
          · rw [h2, List.foldl_cons]
            rfl
          · rw [h3, List.foldl_cons]
            rfl
        · have hfind1 : ((db_add_message st ("m" ++ toString k) cid "assistant" content none none none k).1).conversations.find?
              (fun x => x.id == cid)
              = some { c with updated_at := k } := by
            rw [db_convs_assistant_later st ("m" ++ toString k) cid content k m hca, find?_touch, hfind]
            rfl
          obtain ⟨c', h1, h2, h3⟩ := ih _ cid (k + 1) _ nu (m + 1 + 1) pu pa hfind1 hcu1 hca1 hpu hpa
          refine ⟨c', h1, ?_, ?_⟩
          · rw [h2, List.foldl_cons]
            rfl
          · rw [h3, List.foldl_cons]
            rfl
      · have hrub : (r == "user") = false := by simpa using hru
        have hrab : (r == "assistant") = false := by simpa using hra
        have hcu1 : (((db_add_message st ("m" ++ toString k) cid r content none none none k).1).messages.filter
            fun m => m.conversation_id == cid && m.role == "user").length = nu := by
          rw [db_add_message_msgs,
            db_filter_append_other st ("m" ++ toString k) cid r "user" content k hrub, hcu]
        have hca1 : (((db_add_message st ("m" ++ toString k) cid r content none none none k).1).messages.filter
            fun m => m.conversation_id == cid && m.role == "assistant").length = na := by
          rw [db_add_message_msgs,
            db_filter_append_other st ("m" ++ toString k) cid r "assistant" content k hrab, hca]
        have hfind1 : ((db_add_message st ("m" ++ toString k) cid r content none none none k).1).conversations.find?
            (fun x => x.id == cid)
            = some { c with updated_at := k } := by
          rw [db_convs_other st ("m" ++ toString k) cid r content k hrub hrab, find?_touch, hfind]
          rfl
        obtain ⟨c', h1, h2, h3⟩ := ih _ cid (k + 1) _ nu na pu pa hfind1 hcu1 hca1 hpu hpa
        refine ⟨c', h1, ?_, ?_⟩
        · rw [h2, List.foldl_cons]
          have hstep : dbPreviewStep "user" (nu, pu) (r, content) = (nu, pu) := by
            unfold dbPreviewStep
            simp [hrub]
          rw [hstep]
        · rw [h3, List.foldl_cons]
          have hstep : dbPreviewStep "assistant" (na, pa) (r, content) = (na, pa) := by
            unfold dbPreviewStep
            simp [hrab]
          rw [hstep]



theorem dbFold_pos (r : String) (items : List (String × String)) :
    ∀ (n : Nat) (p : Option String),
    (items.foldl (dbPreviewStep r) (n + 1, p)).2 = p := by
  induction items with
  | nil => intro n p; rfl
  | cons it rest ih =>
    intro n p
    rw [List.foldl_cons]
    by_cases hr : (it.1 == r) = true
    · have hstep : dbPreviewStep r (n + 1, p) it = (n + 1 + 1, p) := by
        unfold dbPreviewStep
        simp [hr]
      rw [hstep]
      exact ih (n + 1) p
    · have hrf : (it.1 == r) = false := by simpa using hr
      have hstep : dbPreviewStep r (n + 1, p) it = (n + 1, p) := by
        unfold dbPreviewStep
        simp [hrf]
      rw [hstep]
      exact ih n p

theorem dbFold_zero (r : String) (items : List (String × String)) :
    ∀ p : Option String,
    (items.foldl (dbPreviewStep r) (0, p)).2 = dbExpectedPreview r items p := by
  induction items with
  | nil => intro p; rfl
  | cons it rest ih =>
    intro p
    rw [List.foldl_cons]
    unfold dbExpectedPreview
    by_cases hr : (it.1 == r) = true
    · have hstep : dbPreviewStep r (0, p) it = (0 + 1, some (dbTruncate it.2)) := by
        unfold dbPreviewStep
        simp [hr]
      rw [hstep, dbFold_pos r rest 0 (some (dbTruncate it.2)), List.find?_cons, hr]
    · have hrf : (it.1 == r) = false := by simpa using hr
      have hstep : dbPreviewStep r (0, p) it = (0, p) := by
        unfold dbPreviewStep
        simp [hrf]
      rw [hstep, ih p, List.find?_cons, hrf]
      rfl

set_option maxRecDepth 20000

theorem take_isEmpty_false (l : List ChatMsg) (hgt : 20 < l.length) :
    (l.take (l.length - 20)).isEmpty = false := by
  cases h : l.take (l.length - 20) with
  | nil =>
    exfalso
    rcases List.take_eq_nil_iff.mp h with h0 | hnil
    · omega
    · rw [hnil] at hgt
      simp at hgt
  | cons a t => rfl

/-- Claim C2: `buildHistory` (the service-provider `get_message_history`)
returns the projected role/content list unchanged when `summarize` is false or
the list has at most threshold (20) entries; when `summarize` is true and the
list is longer, it returns one system entry whose content is
`Summary of previous conversation: ` + newline + the summary, followed by
exactly the last 20 projected entries in order; for 25 messages this gives a
history of length 21 whose entries 1..20 are projected entries 5..24. -/
theorem C2_build_history (st : DBState) (cid : String) (conv : SqlConversation)
    (dbMsgs : List SqlMessage) (summarize : Bool) (s : String)
    (summarizer : List ChatMsg → Except String String)
    (hfind : db_get_conversation st cid = some (conv, dbMsgs)) :
    ((summarize = false ∨ (projectMessages dbMsgs).length ≤ 20) →
      llm_get_message_history st cid summarize summarizer = .ok (projectMessages dbMsgs))
    ∧ (summarize = true → 20 < (projectMessages dbMsgs).length →
      summarizer ((projectMessages dbMsgs).take ((projectMessages dbMsgs).length - 20)) = .ok s →
      llm_get_message_history st cid summarize summarizer
        = .ok ({ role := "system", content := "Summary of previous conversation: \n" ++ s }
            :: (projectMessages dbMsgs).drop ((projectMessages dbMsgs).length - 20)))
    ∧ (summarize = true → (projectMessages dbMsgs).length = 25 →
      summarizer ((projectMessages dbMsgs).take 5) = .ok s →
      ∃ h, llm_get_message_history st cid summarize summarizer = .ok h
        ∧ h.length = 21
        ∧ h.head? = some { role := "system", content := "Summary of previous conversation: \n" ++ s }
        ∧ h.tail = (projectMessages dbMsgs).drop 5) := by
  refine ⟨?_, ?_, ?_⟩
  · intro hcase
    unfold llm_get_message_history CONVERSATION_MESSAGES_THRESHOLD
    rw [hfind]
    dsimp only
    rcases hcase with hs | hlen
    · subst hs
      by_cases hl : (projectMessages dbMsgs).length ≤ 20
      · rw [if_pos hl]
      · rw [if_neg hl]
        rfl
    · rw [if_pos hlen]
  · intro hs hgt hsum
    subst hs
    unfold llm_get_message_history CONVERSATION_MESSAGES_THRESHOLD
    rw [hfind]
    dsimp only
    rw [if_neg (not_le.mpr hgt), take_isEmpty_false _ hgt, hsum]
    rfl
  · intro hs h25 hsum
    have hgt : 20 < (projectMessages dbMsgs).length := by omega
    have hsum5 : summarizer ((projectMessages dbMsgs).take
        ((projectMessages dbMsgs).length - 20)) = .ok s := by
      rw [h25]
      exact hsum
    subst hs
    unfold llm_get_message_history CONVERSATION_MESSAGES_THRESHOLD
    rw [hfind]
    dsimp only
    rw [if_neg (not_le.mpr hgt), take_isEmpty_false _ hgt, hsum5]
    refine ⟨_, by rfl, ?_, ?_, ?_⟩
    · show ({ role := "system", content := "Summary of previous conversation: \n" ++ s }
          :: pySliceLast (projectMessages dbMsgs) 20).length = 21
      unfold pySliceLast
      rw [if_neg (by decide), List.length_cons, List.length_drop]
      omega
    · rfl
    · show pySliceLast (projectMessages dbMsgs) 20 = (projectMessages dbMsgs).drop 5
      unfold pySliceLast
      rw [if_neg (by decide), h25]
  
/-- Claim C2 witness: the spec scenario — 25 stored messages, summarizer
returning `- point one` — evaluated concretely through the theorem. -/
theorem C2_build_history_witness :
    llm_get_message_history scenarioState "c" true okSummarizer
      = .ok ({ role := "system", content := "Summary of previous conversation: \n- point one" }
          :: (projectMessages (demoMsgs "c" 25)).drop ((projectMessages (demoMsgs "c" 25)).length - 20))
    ∧ (projectMessages (demoMsgs "c" 25)).length = 25 := by
  constructor
  · exact (C2_build_history scenarioState "c" (demoConv "c" none) (demoMsgs "c" 25) true
      "- point one" okSummarizer rfl).2.1 rfl (by decide) rfl
  · decide

/-- Claim C7: when the history exceeds the threshold with summarization
requested and the summarizer call fails, `get_message_history` catches the
failure and returns exactly the last 20 projected entries; the `Except` value
is `ok`, so the failure does not propagate past the assembler. -/
theorem C7_summarizer_failure (st : DBState) (cid : String) (conv : SqlConversation)
    (dbMsgs : List SqlMessage) (e : String)
    (summarizer : List ChatMsg → Except String String)
    (hfind : db_get_conversation st cid = some (conv, dbMsgs))
    (hgt : 20 < (projectMessages dbMsgs).length)
    (hsum : summarizer ((projectMessages dbMsgs).take
        ((projectMessages dbMsgs).length - 20)) = .error e) :
    llm_get_message_history st cid true summarizer
      = .ok ((projectMessages dbMsgs).drop ((projectMessages dbMsgs).length - 20)) := by
  unfold llm_get_message_history CONVERSATION_MESSAGES_THRESHOLD
  rw [hfind]
  dsimp only
  rw [if_neg (not_le.mpr hgt), take_isEmpty_false _ hgt, hsum]
  rfl

/-- Claim C7 witness: the 25-message conversation with a failing summarizer,
evaluated through the theorem. -/
theorem C7_summarizer_failure_witness :
    llm_get_message_history scenarioState "c" true failSummarizer
      = .ok ((projectMessages (demoMsgs "c" 25)).drop
          ((projectMessages (demoMsgs "c" 25)).length - 20)) :=
  C7_summarizer_failure scenarioState "c" (demoConv "c" none) (demoMsgs "c" 25)
    "rate limited" failSummarizer rfl (by decide) rfl



/-- Claim C4 counterexample: a conversation with stored system instruction
`You are helpful` and one projected user message; the service-provider
`get_message_history` (the one the chat route calls) returns only the user
entry — no synthetic system entry is prepended at position 0. -/
theorem C4_counterexample :
    llm_get_message_history
        { conversations := [demoConv "c" (some "You are helpful")], messages := demoMsgs "c" 1 }
        "c" true failSummarizer
      = .ok [{ role := "user", content := "x0" }]
    ∧ (demoConv "c" (some "You are helpful")).system_prompt = some "You are helpful"
    ∧ ([{ role := "user", content := "x0" }] : List ChatMsg).any
        (fun m => m.role == "system") = false := ⟨rfl, rfl, rfl⟩

/-- Claim C4 (amended): only the database-level `crud.py get_message_history`
prepends the synthetic `{role: system, content: instruction}` entry, and it is
position 0 of the returned history whenever summarization is skipped (the
summarize flag false, or the prepended list within threshold); the
service-provider assembler used by the chat route never consults the stored
instruction — on its unsummarized path it returns the projected list
unchanged. -/
theorem C4_system_prompt (st : DBState) (cid : String) (conv : SqlConversation)
    (dbMsgs : List SqlMessage) (sp : String) (summarize : Bool) (threshold : Nat)
    (summarizer : List ChatMsg → Except String String)
    (hfind : db_get_conversation st cid = some (conv, dbMsgs))
    (hsp : conv.system_prompt = some sp) (hne : sp.isEmpty = false)
    (hnosys : ((projectMessages dbMsgs).any fun m => m.role == "system") = false)
    (hshort : summarize = false ∨ (crudProjected conv dbMsgs).length ≤ threshold) :
    crud_get_message_history st cid summarize threshold
      = { role := "system", content := sp } :: projectMessages dbMsgs
    ∧ ((projectMessages dbMsgs).length ≤ 20 →
        llm_get_message_history st cid summarize summarizer = .ok (projectMessages dbMsgs)) := by
  have hproj : crudProjected conv dbMsgs
      = { role := "system", content := sp } :: projectMessages dbMsgs := by
    unfold crudProjected
    rw [hsp, hnosys]
    simp [pyTruthy, hne]
  constructor
  · unfold crud_get_message_history
    rw [hfind]
    dsimp only
    rcases hshort with hs | hl
    · subst hs
      rw [if_pos (by simp)]
      exact hproj
    · rw [if_pos (by simp [hl])]
      exact hproj
  · intro hl20
    unfold llm_get_message_history CONVERSATION_MESSAGES_THRESHOLD
    rw [hfind]
    dsimp only
    rw [if_pos hl20]

/-- Claim C4 witness: conversation with system prompt `be nice` and three
messages; the crud-level history starts with the synthetic system entry. -/
theorem C4_system_prompt_witness :
    crud_get_message_history
        { conversations := [demoConv "c" (some "be nice")], messages := demoMsgs "c" 3 }
        "c" true 20
      = { role := "system", content := "be nice" } :: projectMessages (demoMsgs "c" 3)
    ∧ (projectMessages (demoMsgs "c" 3)).length ≤ 20 := by
  constructor
  · exact (C4_system_prompt
      { conversations := [demoConv "c" (some "be nice")], messages := demoMsgs "c" 3 }
      "c" (demoConv "c" (some "be nice")) (demoMsgs "c" 3) "be nice" true 20 failSummarizer
      rfl rfl rfl (by decide) (Or.inr (by decide))).1
  · decide

/-- Claim C3 counterexample: `misc/db.py add_message` (the default sqlite
backend) called with a conversation id that exists nowhere still inserts the
message row and returns its id — sqlite never enforces the declared FOREIGN
KEY because the foreign-keys pragma is not enabled. -/
theorem C3_counterexample :
    (db_add_message { conversations := [], messages := [] } "m1" "ghost" "user" "hi"
        none none none 1).2 = "m1"
    ∧ (db_add_message { conversations := [], messages := [] } "m1" "ghost" "user" "hi"
        none none none 1).1.messages
      = [{ id := "m1", conversation_id := "ghost", role := "user", content := "hi"
           created_at := 1, tokens := none, model := none, metadata := none }]
    ∧ ({ conversations := [], messages := [] } : DBState).conversations.find?
        (fun x => x.id == "ghost") = none := ⟨rfl, rfl, rfl⟩

/-- Claim C3 (amended): the SQLAlchemy `crud.py add_message` checks existence
first and, for an unknown conversation id, returns `None` with the stored
state unchanged — no message inserted, no id returned; the raw-sqlite and
Azure variants perform the insert without any existence check. -/
theorem C3_add_message_not_found (st : DBState) (mid cid role content : String)
    (tokens : Option Nat) (model : Option String) (metadata : Option PyDict) (now : Nat)
    (h : st.conversations.find? (fun x => x.id == cid) = none) :
    crud_add_message st mid cid role content tokens model metadata now = (st, .ok none) := by
  unfold crud_add_message
  rw [h]

/-- Claim C3 witness: `crud.py add_message` against an empty store returns
`None` and leaves the state untouched. -/
theorem C3_add_message_not_found_witness :
    crud_add_message { conversations := [], messages := [] } "m1" "ghost" "user" "hi"
        none none none 1
      = ({ conversations := [], messages := [] }, .ok none) :=
  C3_add_message_not_found { conversations := [], messages := [] } "m1" "ghost" "user" "hi"
    none none none 1 rfl

/-- Claim C9: evaluation at the failing input.  Deleting a conversation that
owns one message through `misc/db.py delete_conversation` returns `True` and
removes the conversation row, but the message row survives (the declared
`ON DELETE CASCADE` never fires because the sqlite foreign-keys pragma is
never enabled), contradicting the function's own docstring; the SQLAlchemy
variant deletes the messages as claimed (ORM cascade), and the return value is
`False` for an absent id. -/
theorem C9_cascade_divergence :
    (db_delete_conversation
        { conversations := [demoConv "c1" none], messages := demoMsgs "c1" 1 } "c1").2 = true
    ∧ (db_delete_conversation
        { conversations := [demoConv "c1" none], messages := demoMsgs "c1" 1 } "c1").1.conversations = []
    ∧ (db_delete_conversation
        { conversations := [demoConv "c1" none], messages := demoMsgs "c1" 1 } "c1").1.messages
      = demoMsgs "c1" 1
    ∧ (crud_delete_conversation
        { conversations := [demoConv "c1" none], messages := demoMsgs "c1" 1 } "c1").2 = true
    ∧ (crud_delete_conversation
        { conversations := [demoConv "c1" none], messages := demoMsgs "c1" 1 } "c1").1.messages = []
    ∧ (db_delete_conversation
        { conversations := [demoConv "c1" none], messages := demoMsgs "c1" 1 } "absent").2 = false :=
  ⟨rfl, rfl, rfl, rfl, rfl, rfl⟩

/-- Claim C10 counterexample: `crud.py create_conversation` called with the
non-`None` metadata `{}` does not raise `NameError` — the guard
`if metadata else None` is falsy for an empty dict, so `json.dumps` is never
evaluated and the insert commits. -/
theorem C10_counterexample :
    (crud_create_conversation { conversations := [], messages := [] } "c1" "t" "gpt-4o"
        none none (some []) 0).2
      = .ok { id := "c1", title := "t", created_at := 0, updated_at := 0, user_id := none
              model := "gpt-4o", system_prompt := none, first_user_message := none
              first_assistant_message := none, metadata := none }
    ∧ (crud_create_conversation { conversations := [], messages := [] } "c1" "t" "gpt-4o"
        none none (some []) 0).1.conversations.length = 1 := ⟨rfl, rfl⟩

/-- Claim C10 (amended): in `crud.py`, where `json` is never imported,
`create_conversation` and `add_message` (on an existing conversation) raise
`NameError` before anything is committed exactly when metadata is truthy
(a non-empty dict), while a non-`None` but empty metadata dict is treated as
absent and the call succeeds; `update_conversation` (on an existing
conversation) raises for every non-`None` metadata, the empty dict included,
before committing; calls that omit metadata succeed. -/
theorem C10_missing_json_import (st : DBState) (cid title model : String)
    (user_id system_prompt : Option String) (d : PyDict) (now : Nat)
    (conversation_id : String) (t2 sp2 : Option String)     (mid role content : String) (tokens : Option Nat) (mo : Option String)
    (c : SqlConversation)
    (hd : d ≠ [])
    (hfound : st.conversations.find? (fun x => x.id == conversation_id) = some c) :
    crud_create_conversation st cid title model user_id system_prompt (some d) now
      = (st, .error nameErrorJson)
    ∧ crud_add_message st mid conversation_id role content tokens mo (some d) now
      = (st, .error nameErrorJson)
    ∧ crud_update_conversation st conversation_id t2 sp2 (some d.reverse.reverse) now
      = (st, .error nameErrorJson)
    ∧ crud_update_conversation st conversation_id t2 sp2 (some []) now
      = (st, .error nameErrorJson)
    ∧ (crud_create_conversation st cid title model user_id system_prompt none now).2.isOk = true
    ∧ (crud_create_conversation st cid title model user_id system_prompt (some []) now).2.isOk = true
    ∧ (crud_add_message st mid conversation_id role content tokens mo none now).2.isOk = true := by
  have hT : pyTruthyDict (some d) = true := by
    cases d with
    | nil => exact absurd rfl hd
    | cons a t => rfl
  refine ⟨?_, ?_, ?_, ?_, ?_, ?_, ?_⟩
  · unfold crud_create_conversation
    rw [if_pos hT]
  · unfold crud_add_message
    rw [hfound]
    dsimp only
    rw [if_pos hT]
  · unfold crud_update_conversation
    rw [hfound]
    dsimp only
    rw [if_pos (by simp : (some d.reverse.reverse).isSome = true)]
  · unfold crud_update_conversation
    rw [hfound]
    rfl
  · unfold crud_create_conversation
    rfl
  · unfold crud_create_conversation
    rfl
  · unfold crud_add_message
    rw [hfound]
    rfl

/-- Claim C10 witness: a truthy metadata dict makes `create_conversation`
raise `NameError` with the state unchanged, and an empty dict does the same
for `update_conversation` on an existing conversation. -/
theorem C10_missing_json_import_witness :
    crud_create_conversation { conversations := [demoConv "c" none], messages := [] }
        "c2" "t" "gpt-4o" none none (some [("k", "v")]) 0
      = ({ conversations := [demoConv "c" none], messages := [] }, .error nameErrorJson)
    ∧ crud_update_conversation { conversations := [demoConv "c" none], messages := [] }
        "c" none none (some []) 0
      = ({ conversations := [demoConv "c" none], messages := [] }, .error nameErrorJson) := by
  have h := C10_missing_json_import { conversations := [demoConv "c" none], messages := [] }
    "c2" "t" "gpt-4o" none none [("k", "v")] 0 "c" none none "m1" "user" "hi" none none
    (demoConv "c" none) (by decide) rfl
  exact ⟨h.1, h.2.2.2.1⟩



theorem chunk_filter_empty (deltas : List String) (p : StreamStep → Bool)
    (hp : ∀ d, p (StreamStep.emit { content := d, done := false }) = false) :
    (deltas.map fun d => StreamStep.emit { content := d, done := false }).filter p = [] := by
  induction deltas with
  | nil => rfl
  | cons d rest ih =>
    rw [List.map_cons, List.filter_cons, hp d, ih]
    rfl

/-- Claim C5 counterexample: for the one-chunk stream `Hi` that ends
successfully, the trace is chunk, then the `done=true` event, then the
persistence call — no persistence step precedes any terminal event, so
persistence does not happen before the terminal event as claimed. -/
theorem C5_counterexample :
    stream_generator ["Hi"] none none "gpt-4o" "c1"
      = [.emit { content := "Hi", done := false },
         .emit { content := "", done := true, conversation_id := some "c1" },
         .persistAssistant "c1" "Hi" "gpt-4o"]
    ∧ persistBeforeDone (stream_generator ["Hi"] none none "gpt-4o" "c1") = false := by
  refine ⟨?_, by decide⟩
  show List.map _ ["Hi"] ++ _ = _
  rfl

/-- Claim C5 (amended): for every successfully exhausted stream whose
persistence call succeeds, the orchestrator emits each chunk, then exactly one
terminal `done=true` event, and then persists the accumulated full text as one
assistant message exactly once — the persistence is the last step of the
trace, immediately after (not before) the terminal event. -/
theorem C5_persist_after_done (deltas : List String) (model cid : String) :
    stream_generator deltas none none model cid
      = (deltas.map fun d => StreamStep.emit { content := d, done := false })
        ++ [.emit { content := "", done := true, conversation_id := some cid },
            .persistAssistant cid (String.join deltas) model]
    ∧ ((stream_generator deltas none none model cid).filter isPersistStep).length = 1
    ∧ ((stream_generator deltas none none model cid).filter isTerminalEvent).length = 1
    ∧ (stream_generator deltas none none model cid).getLast?
        = some (.persistAssistant cid (String.join deltas) model)
    ∧ (stream_generator deltas none none model cid).dropLast.getLast?
        = some (.emit { content := "", done := true, conversation_id := some cid }) := by
  have heq : stream_generator deltas none none model cid
      = (deltas.map fun d => StreamStep.emit { content := d, done := false })
        ++ [.emit { content := "", done := true, conversation_id := some cid },
            .persistAssistant cid (String.join deltas) model] := rfl
  refine ⟨heq, ?_, ?_, ?_, ?_⟩
  · rw [heq, List.filter_append, chunk_filter_empty _ _ (fun d => rfl)]
    rfl
  · rw [heq, List.filter_append, chunk_filter_empty _ _ (fun d => rfl)]
    rfl
  · rw [heq, show ((deltas.map fun d => StreamStep.emit { content := d, done := false })
        ++ [.emit { content := "", done := true, conversation_id := some cid },
            .persistAssistant cid (String.join deltas) model])
      = ((deltas.map fun d => StreamStep.emit { content := d, done := false })
        ++ [.emit { content := "", done := true, conversation_id := some cid }])
        ++ [.persistAssistant cid (String.join deltas) model] from by
        rw [List.append_assoc]
        rfl]
    exact List.getLast?_concat _
  · rw [heq, show ((deltas.map fun d => StreamStep.emit { content := d, done := false })
        ++ [.emit { content := "", done := true, conversation_id := some cid },
            .persistAssistant cid (String.join deltas) model])
      = ((deltas.map fun d => StreamStep.emit { content := d, done := false })
        ++ [.emit { content := "", done := true, conversation_id := some cid }])
        ++ [.persistAssistant cid (String.join deltas) model] from by
        rw [List.append_assoc]
        rfl]
    rw [List.dropLast_concat]
    exact List.getLast?_concat _

/-- Claim C6: when an error is raised while consuming backend deltas, the
trace is the already-delivered chunks followed by exactly one terminal
`done=true` event carrying the error text and the conversation id, and no
persistence step occurs — the partial accumulated output is discarded. -/
theorem C6_stream_error (deltas : List String) (e model cid : String)
    (persistError : Option String) :
    stream_generator deltas (some e) persistError model cid
      = (deltas.map fun d => StreamStep.emit { content := d, done := false })
        ++ [.emit { done := true, conversation_id := some cid, error := some e }]
    ∧ ((stream_generator deltas (some e) persistError model cid).filter isPersistStep).length = 0
    ∧ ((stream_generator deltas (some e) persistError model cid).filter isTerminalEvent).length = 1
    ∧ (stream_generator deltas (some e) persistError model cid).getLast?
        = some (.emit { done := true, conversation_id := some cid, error := some e }) := by
  have heq : stream_generator deltas (some e) persistError model cid
      = (deltas.map fun d => StreamStep.emit { content := d, done := false })
        ++ [.emit { done := true, conversation_id := some cid, error := some e }] := rfl
  refine ⟨heq, ?_, ?_, ?_⟩
  · rw [heq, List.filter_append, chunk_filter_empty _ _ (fun d => rfl)]
    rfl
  · rw [heq, List.filter_append, chunk_filter_empty _ _ (fun d => rfl)]
    rfl
  · rw [heq]
    exact List.getLast?_concat _

/-- Claim C8: a chat request naming a model that is unsupported, or whose
backend was not initialized, fails synchronously with a 400 error before any
persistence: the returned state is exactly the incoming state, so no
conversation row is created and no user message is appended. -/
theorem C8_invalid_model (st : DBState) (req : ChatRequest) (providers : List String)
    (fcid fmid : String) (now : Nat) (summarizer : List ChatMsg → Except String String)
    (h : model_found providers req.model = false) :
    chat st req providers fcid fmid now summarizer
      = (st, .error (400, "Model " ++ req.model ++ " is not available"))
    ∧ (chat st req providers fcid fmid now summarizer).1.conversations
        = st.conversations := by
  have h1 : chat st req providers fcid fmid now summarizer
      = (st, .error (400, "Model " ++ req.model ++ " is not available")) := by
    unfold chat
    rw [h]
    rfl
  exact ⟨h1, by rw [h1]⟩

/-- Claim C8 witness: the spec scenario `unknown-model-xyz` with both
providers initialized, and a known Anthropic model with only the OpenAI
backend initialized; both fail with 400 and leave the store empty. -/
theorem C8_invalid_model_witness :
    chat { conversations := [], messages := [] }
        { model := "unknown-model-xyz", message := "hello" } ["openai", "anthropic"]
        "c1" "m1" 0 okSummarizer
      = ({ conversations := [], messages := [] },
         .error (400, "Model " ++ "unknown-model-xyz" ++ " is not available"))
    ∧ chat { conversations := [], messages := [] }
        { model := "claude-3-opus-20240229", message := "hello" } ["openai"]
        "c1" "m1" 0 okSummarizer
      = ({ conversations := [], messages := [] },
         .error (400, "Model " ++ "claude-3-opus-20240229" ++ " is not available")) :=
  ⟨(C8_invalid_model { conversations := [], messages := [] }
      { model := "unknown-model-xyz", message := "hello" } ["openai", "anthropic"]
      "c1" "m1" 0 okSummarizer (by decide)).1,
   (C8_invalid_model { conversations := [], messages := [] }
      { model := "claude-3-opus-20240229", message := "hello" } ["openai"]
      "c1" "m1" 0 okSummarizer (by decide)).1⟩

/-- C1 counterexample: in the SQLAlchemy backend, a first user message with
empty content sets `first_user_message` to the empty string, and — because the
guard `not conversation.first_user_message` treats the empty string like NULL —
the next user append overwrites it: the field is set twice, and its final
value is not the first user message's content. -/
theorem C1_counterexample :
    ((crud_append_seq { conversations := [demoConv "c" none], messages := [] } "c" 0
          [("user", "")]).conversations.find? fun x => x.id == "c").map
        (fun c => c.first_user_message) = some (some "")
    ∧ ((crud_append_seq { conversations := [demoConv "c" none], messages := [] } "c" 0
          [("user", ""), ("user", "hello")]).conversations.find? fun x => x.id == "c").map
        (fun c => c.first_user_message) = some (some "hello") :=
  ⟨rfl, rfl⟩

/-- C1 (amended): after any append sequence against a fresh conversation, the
SQLAlchemy backend leaves `first_user_message` equal to the first 100
characters of the earliest user message with non-empty content (the empty
string when user messages exist but all were empty; NULL when none exist),
because an empty-string preview is treated as unset and overwritten; the
count-based sqlite backend sets each preview exactly once, on the first
message of the role, truncated to 100 characters.  Analogously for
`first_assistant_message` and role assistant. -/
theorem C1_preview_columns (st : DBState) (cid : String) (c : SqlConversation)
    (items : List (String × String))
    (hfind : st.conversations.find? (fun x => x.id == cid) = some c)
    (hu : c.first_user_message = none)
    (ha : c.first_assistant_message = none)
    (hmu : (st.messages.filter fun m => m.conversation_id == cid && m.role == "user").length = 0)
    (hma : (st.messages.filter fun m => m.conversation_id == cid && m.role == "assistant").length = 0) :
    (∃ c', (crud_append_seq st cid 0 items).conversations.find? (fun x => x.id == cid) = some c'
       ∧ c'.first_user_message = expectedPreview "user" items
       ∧ c'.first_assistant_message = expectedPreview "assistant" items)
    ∧ (∃ c', (db_append_seq st cid 0 items).conversations.find? (fun x => x.id == cid) = some c'
       ∧ c'.first_user_message = dbExpectedPreview "user" items none
       ∧ c'.first_assistant_message = dbExpectedPreview "assistant" items none) := by
  constructor
  · obtain ⟨c', h1, h2, h3⟩ := crud_append_seq_previews items st cid 0 c hfind
    refine ⟨c', h1, ?_, ?_⟩
    · rw [h2, hu, previewFold_falsy _ _ _ (by rfl)]
      rfl
    · rw [h3, ha, previewFold_falsy _ _ _ (by rfl)]
      rfl
  · obtain ⟨c', h1, h2, h3⟩ :=
      db_append_seq_previews items st cid 0 c 0 0 none none hfind hmu hma hu ha
    exact ⟨c', h1, by rw [h2, dbFold_zero], by rw [h3, dbFold_zero]⟩

/-- C1 witness: the spec scenario — append user `Hi` then assistant
`Hello there!` to a fresh conversation; both previews are set to the full
(short) contents in both backends. -/
theorem C1_preview_columns_witness :
    (∃ c', (crud_append_seq { conversations := [demoConv "c" none], messages := [] } "c" 0
          [("user", "Hi"), ("assistant", "Hello there!")]).conversations.find?
            (fun x => x.id == "c") = some c'
       ∧ c'.first_user_message = expectedPreview "user" [("user", "Hi"), ("assistant", "Hello there!")]
       ∧ c'.first_assistant_message
           = expectedPreview "assistant" [("user", "Hi"), ("assistant", "Hello there!")])
    ∧ (∃ c', (db_append_seq { conversations := [demoConv "c" none], messages := [] } "c" 0
          [("user", "Hi"), ("assistant", "Hello there!")]).conversations.find?
            (fun x => x.id == "c") = some c'
       ∧ c'.first_user_message
           = dbExpectedPreview "user" [("user", "Hi"), ("assistant", "Hello there!")] none
       ∧ c'.first_assistant_message
           = dbExpectedPreview "assistant" [("user", "Hi"), ("assistant", "Hello there!")] none) :=
  C1_preview_columns { conversations := [demoConv "c" none], messages := [] } "c"
    (demoConv "c" none) [("user", "Hi"), ("assistant", "Hello there!")] rfl rfl rfl rfl rfl

end ChatApp
